import Mathlib

/-!
Shallow embedding of `src/lib/libteam.c` (libteam: user-space control library
for a kernel "team" network device).

Modelling conventions:
* C intrusive `struct list_head` lists become Lean `List`s, in the order that
  `list_for_each_entry` visits the entries (head-to-tail along `next`).
* Machine integers (`uint32_t`, `int`) become `Nat`/`Int`; the values involved
  (ifindexes, errno codes, netlink attribute codes) are small and no overflow
  arithmetic occurs in the modelled code paths.
* Netlink messages are modelled as records of the attributes the decoders
  read: an `Option` field encodes attribute presence, a `Bool` field encodes a
  presence-only flag.  Environment effects the code branches on (allocation
  success, socket results) are explicit parameters.
* A callback invocation is recorded by appending the handler's identity to a
  trace list; the C callback's side effects on application state are opaque to
  the library and are not modelled.
-/

/- errno constants, Linux asm-generic values (the code returns their negations). -/

def ENOENT : Int := 2

def ENOMEM : Int := 12

def EEXIST : Int := 17

def EINVAL : Int := 22

def ENOTSUP : Int := 95

def ENOBUFS : Int := 105

/- netlink attribute data types from libnl (netlink/attr.h). -/

def NLA_U32 : Nat := 3

def NLA_STRING : Nat := 5

/- generic netlink command numbers from linux/if_team.h. -/

def TEAM_CMD_OPTIONS_SET : Nat := 1

/-- Modelled from the spec: `enum team_change_type` comes from the public
header `team.h`, which is not under `src/`.  The spec's data model gives a
change-class tag with the three distinct values PORT, OPTION, ALL. -/
inductive TeamChangeType
  | port
  | option
  | all
deriving DecidableEq

/-- Modelled from the spec: `enum team_option_type` comes from the public
header `team.h`, which is not under `src/`.  The spec gives exactly the two
type tags U32 and STRING. -/
inductive TeamOptionType
  | u32
  | string
deriving DecidableEq

/-- The payload behind a `team_option`'s `void *data`, tagged by how the
decoder produced it (`nla_get_u32` vs `nla_get_string`). -/
inductive OptionData
  | u32val (v : Nat)
  | strval (s : String)
deriving DecidableEq

/-- `struct team_port` (libteam.c:143). -/
structure TeamPort where
  ifindex : Nat
  speed : Nat
  duplex : Nat
  changed : Bool
  linkup : Bool
deriving DecidableEq

/-- `struct team_option` (libteam.c:152). -/
structure TeamOption where
  type : TeamOptionType
  changed : Bool
  name : String
  data : OptionData
deriving DecidableEq

/-- Modelled from the spec: `struct team_change_handler` is declared in the
missing public header `team.h`.  Its identity is its address (`id` here); the
fields the core reads are the change-class tag `type` and, opaquely, the
callback (`func`/`func_priv`), which we record by `id` in invocation traces. -/
structure TeamChangeHandler where
  id : Nat
  type : TeamChangeType
deriving DecidableEq

/-- `struct change_handler_item` (libteam.c:161). -/
structure ChangeHandlerItem where
  call_this : Bool
  handler : TeamChangeHandler
deriving DecidableEq

/-- `struct team_handle` (libteam.c:128), restricted to the fields the
modelled operations read or write.  The sockets and the route-netlink cache
are external collaborators; `nl_sock_err` is the command-socket completion
counter that `send_and_recv` drives. -/
structure TeamHandle where
  ifindex : Nat
  family : Int
  nl_sock_err : Int
  port_list : List TeamPort
  option_list : List TeamOption
  change_handler_list : List ChangeHandlerItem
deriving DecidableEq

/-- `team_alloc` (libteam.c:592): zeroed handle, three empty lists (the
socket allocations are external and not modelled). -/
def team_alloc : TeamHandle :=
  { ifindex := 0, family := 0, nl_sock_err := 0,
    port_list := [], option_list := [], change_handler_list := [] }

/-- Loop body of `set_call_change_handlers` (libteam.c:167): mark
`call_this` on every item whose condition
`type == TEAM_ALL_CHANGE || handler_item->handler->type == type` holds. -/
def mark_items (t : TeamChangeType) (items : List ChangeHandlerItem) :
    List ChangeHandlerItem :=
  items.map (fun hi =>
    if t = TeamChangeType.all ∨ hi.handler.type = t then
      { hi with call_this := true }
    else hi)

/-- `set_call_change_handlers` (libteam.c:167). -/
def set_call_change_handlers (th : TeamHandle) (t : TeamChangeType) : TeamHandle :=
  { th with change_handler_list := mark_items t th.change_handler_list }

/-- Loop of `check_call_change_handlers` (libteam.c:179): walk the items in
list order; when `(type == TEAM_ALL_CHANGE || handler->type == type) &&
call_this`, invoke the callback (recorded by handler id, in invocation
order) and clear `call_this`.  Returns the updated items and the trace. -/
def sweepItems (t : TeamChangeType) :
    List ChangeHandlerItem → List ChangeHandlerItem × List Nat
  | [] => ([], [])
  | hi :: rest =>
    let r := sweepItems t rest
    if (t = TeamChangeType.all ∨ hi.handler.type = t) ∧ hi.call_this = true then
      ({ hi with call_this := false } :: r.1, hi.handler.id :: r.2)
    else
      (hi :: r.1, r.2)

/-- `check_call_change_handlers` (libteam.c:179). -/
def check_call_change_handlers (th : TeamHandle) (t : TeamChangeType) :
    TeamHandle × List Nat :=
  let r := sweepItems t th.change_handler_list
  ({ th with change_handler_list := r.1 }, r.2)

/-- `find_change_handler` (libteam.c:195): first item whose `handler`
pointer equals the argument (pointer identity is modelled by `id`). -/
def find_change_handler (items : List ChangeHandlerItem)
    (handler : TeamChangeHandler) : Option ChangeHandlerItem :=
  items.find? (fun hi => hi.handler.id == handler.id)

/-- `__find_option` (libteam.c:262): first option whose name compares equal
(`strcmp == 0`). -/
def __find_option (opt_list : List TeamOption) (name : String) :
    Option TeamOption :=
  opt_list.find? (fun o => o.name == name)

/-- `team_change_handler_register` (libteam.c:770).  `alloc_ok` models the
`malloc` outcome.  Note the C code inserts with `list_add`, i.e. right after
the list head, so the new item is the FIRST one the iteration visits. -/
def team_change_handler_register (alloc_ok : Bool) (th : TeamHandle)
    (handler : TeamChangeHandler) : TeamHandle × Int :=
  if (find_change_handler th.change_handler_list handler).isSome then
    (th, -EEXIST)
  else if alloc_ok = false then
    (th, -ENOMEM)
  else
    ({ th with change_handler_list :=
        { call_this := false, handler := handler } :: th.change_handler_list }, 0)

/-- `team_change_handler_unregister` (libteam.c:787): find the item; if
absent return silently, else `list_del` exactly that item. -/
def team_change_handler_unregister (th : TeamHandle)
    (handler : TeamChangeHandler) : TeamHandle :=
  match find_change_handler th.change_handler_list handler with
  | none => th
  | some _ =>
    { th with change_handler_list :=
        th.change_handler_list.eraseP (fun hi => hi.handler.id == handler.id) }

/- ---------------------------------------------------------------------
   Message decoders.
--------------------------------------------------------------------- -/

/-- The attributes of one nested port entry as the decoder loop sees them
(libteam.c:375-405).  `parse_ok` is the `nla_parse_nested` outcome,
`alloc_ok` the `malloc` outcome for the `team_port` record; `changed` and
`linkup` are presence-only flags; `speed`/`duplex` are optional values. -/
structure PortAttrs where
  parse_ok : Bool
  ifindex : Option Nat
  alloc_ok : Bool
  changed : Bool
  linkup : Bool
  speed : Option Nat
  duplex : Option Nat
deriving DecidableEq

/-- A port-list message's top-level attributes (libteam.c:365-373):
`TEAM_ATTR_TEAM_IFINDEX` (optional) and `TEAM_ATTR_LIST_PORT` (optional,
carrying the nested entries). -/
structure PortListMsg where
  team_ifindex : Option Nat
  port_list : Option (List PortAttrs)
deriving DecidableEq

/-- The entry loop of `get_port_list_handler` (libteam.c:375-405) building
`tmp_list`.  `none` is the mid-loop `return NL_SKIP` (nested-parse failure,
missing port-ifindex attribute, or `malloc` failure), which abandons the
whole message before the flush/splice.  A successful entry is zeroed
(`memset`) and then filled from the present attributes, appended with
`list_add_tail`. -/
def decode_ports : List PortAttrs → Option (List TeamPort)
  | [] => some []
  | pa :: rest =>
    if pa.parse_ok = false then none
    else
      match pa.ifindex with
      | none => none
      | some pidx =>
        if pa.alloc_ok = false then none
        else
          (decode_ports rest).map (fun ps =>
            { ifindex := pidx, speed := pa.speed.getD 0,
              duplex := pa.duplex.getD 0, changed := pa.changed,
              linkup := pa.linkup } :: ps)

/-- `get_port_list_handler` (libteam.c:354).  `junk` is the value of the
uninitialized stack variable `team_ifindex` read when the message lacks the
team-ifindex attribute.  On success the old list is flushed, the fresh list
spliced in, and PORT-class marking runs. -/
def get_port_list_handler (junk : Nat) (th : TeamHandle) (msg : PortListMsg) :
    TeamHandle :=
  let team_ifindex := msg.team_ifindex.getD junk
  if team_ifindex ≠ th.ifindex then th
  else
    match msg.port_list with
    | none => th
    | some entries =>
      match decode_ports entries with
      | none => th
      | some new_ports =>
        set_call_change_handlers { th with port_list := new_ports }
          TeamChangeType.port

/-- The attributes of one nested option entry as the decoder loop sees them
(libteam.c:460-514).  The data attribute is a raw payload; `payloadU32` and
`payloadStr` are its two possible readings (`nla_get_u32` /
`nla_get_string`), selected by the value of the type attribute. -/
structure OptionAttrs where
  parse_ok : Bool
  name : Option String
  typeCode : Option Nat
  dataPresent : Bool
  payloadU32 : Nat
  payloadStr : String
  changed : Bool
deriving DecidableEq

/-- An option-list message's top-level attributes (libteam.c:450-458). -/
structure OptionListMsg where
  team_ifindex : Option Nat
  option_list : Option (List OptionAttrs)
deriving DecidableEq

/-- The entry loop of `get_options_handler` (libteam.c:460-514) building
`tmp_list` (the accumulator `acc`).  `none` is the mid-loop `return NL_SKIP`
(nested-parse failure or a missing name/type/data attribute); a duplicate
name in the list built so far, or an unrecognized netlink type code, is a
`continue` that drops only that entry.  (`create_option`'s allocation result
is not checked by the C code; allocation is assumed to succeed here.) -/
def decode_options (acc : List TeamOption) :
    List OptionAttrs → Option (List TeamOption)
  | [] => some acc
  | oa :: rest =>
    if oa.parse_ok = false then none
    else
      match oa.name, oa.typeCode, oa.dataPresent with
      | some nm, some tc, true =>
        if (__find_option acc nm).isSome then
          decode_options acc rest
        else if tc = NLA_U32 then
          decode_options (acc ++
            [{ type := TeamOptionType.u32, changed := oa.changed,
               name := nm, data := OptionData.u32val oa.payloadU32 }]) rest
        else if tc = NLA_STRING then
          decode_options (acc ++
            [{ type := TeamOptionType.string, changed := oa.changed,
               name := nm, data := OptionData.strval oa.payloadStr }]) rest
        else
          decode_options acc rest
      | _, _, _ => none

/-- `get_options_handler` (libteam.c:439), same shape as the port decoder:
ifindex filter, entry loop, flush + splice + OPTION-class marking. -/
def get_options_handler (junk : Nat) (th : TeamHandle) (msg : OptionListMsg) :
    TeamHandle :=
  let team_ifindex := msg.team_ifindex.getD junk
  if team_ifindex ≠ th.ifindex then th
  else
    match msg.option_list with
    | none => th
    | some entries =>
      match decode_options [] entries with
      | none => th
      | some new_options =>
        set_call_change_handlers { th with option_list := new_options }
          TeamChangeType.option

/-- One inbound event-socket message, tagged by the generic-netlink command
the `event_handler` switch (libteam.c:573) dispatches on:
`TEAM_CMD_PORT_LIST_GET`, `TEAM_CMD_OPTIONS_GET`, or anything else. -/
inductive EventMsg
  | portListGet (msg : PortListMsg)
  | optionsGet (msg : OptionListMsg)
  | other
deriving DecidableEq

/-- `event_handler` (libteam.c:573). -/
def event_handler (junk : Nat) (th : TeamHandle) (m : EventMsg) : TeamHandle :=
  match m with
  | EventMsg.portListGet msg => get_port_list_handler junk th msg
  | EventMsg.optionsGet msg => get_options_handler junk th msg
  | EventMsg.other => th

/-- `team_process_event` (libteam.c:727): one `nl_recvmsgs_default` on the
event socket delivers the datagram's messages (`msgs`) to `event_handler` in
order, then the ALL-class fire sweep runs.  Returns the new handle state and
the trace of invoked handler ids. -/
def team_process_event (junk : Nat) (th : TeamHandle) (msgs : List EventMsg) :
    TeamHandle × List Nat :=
  check_call_change_handlers (msgs.foldl (event_handler junk) th)
    TeamChangeType.all

/- ---------------------------------------------------------------------
   Command path: option setter and init.
--------------------------------------------------------------------- -/

/-- Environment outcomes for one request/reply exchange: `alloc_ok` is
`nlmsg_alloc`, `put_ok` covers the `NLA_PUT`/`nla_nest_start` calls,
`send_err` is `nl_send_auto_complete`'s result, and `recv_result` is the
terminal value of `nl_sock_err` after the receive loop (0 on ack/finish, a
negative errno on error). -/
structure SendEnv where
  alloc_ok : Bool
  put_ok : Bool
  send_err : Int
  recv_result : Int
deriving DecidableEq

/-- The encoded option-set request of `set_option_value` (libteam.c:300):
`TEAM_CMD_OPTIONS_SET` with `TEAM_ATTR_TEAM_IFINDEX`, and a nested option
list holding one item `{NAME, TYPE, DATA}`. -/
structure OptSetMsg where
  cmd : Nat
  team_ifindex : Nat
  opt_name : String
  opt_nla_type : Nat
  opt_data : OptionData
deriving DecidableEq

/-- `send_and_recv` (libteam.c:273): on send failure return the send error;
otherwise drive `nl_sock_err` from 1 down to its terminal value and return
it. -/
def send_and_recv (env : SendEnv) (th : TeamHandle) : TeamHandle × Int :=
  if env.send_err < 0 then (th, env.send_err)
  else ({ th with nl_sock_err := env.recv_result }, env.recv_result)

/-- `set_option_value` (libteam.c:300).  The `opt_type` switch maps the two
option-type tags to netlink type codes (the C `default: return -ENOENT`
branch is unreachable for the two-valued tag).  Returns the handle after the
exchange, the result code, and the encoded request when one was built. -/
def set_option_value (env : SendEnv) (th : TeamHandle) (opt_name : String)
    (data : OptionData) (opt_type : TeamOptionType) :
    TeamHandle × Int × Option OptSetMsg :=
  let nla_type : Nat :=
    match opt_type with
    | TeamOptionType.u32 => NLA_U32
    | TeamOptionType.string => NLA_STRING
  if env.alloc_ok = false then (th, -ENOMEM, none)
  else if env.put_ok = false then (th, -ENOBUFS, none)
  else
    let msg : OptSetMsg :=
      { cmd := TEAM_CMD_OPTIONS_SET, team_ifindex := th.ifindex,
        opt_name := opt_name, opt_nla_type := nla_type, opt_data := data }
    let r := send_and_recv env th
    (r.1, r.2, some msg)

/-- `team_set_option_value_by_name_u32` (libteam.c:901). -/
def team_set_option_value_by_name_u32 (env : SendEnv) (th : TeamHandle)
    (opt_name : String) (val : Nat) : TeamHandle × Int × Option OptSetMsg :=
  set_option_value env th opt_name (OptionData.u32val val) TeamOptionType.u32

/-- `team_set_option_value_by_name_string` (libteam.c:908). -/
def team_set_option_value_by_name_string (env : SendEnv) (th : TeamHandle)
    (opt_name : String) (str : String) : TeamHandle × Int × Option OptSetMsg :=
  set_option_value env th opt_name (OptionData.strval str) TeamOptionType.string

/-- `team_get_option_by_name` (libteam.c:857). -/
def team_get_option_by_name (th : TeamHandle) (name : String) :
    Option TeamOption :=
  __find_option th.option_list name

/-- Environment outcomes for the steps of `team_init` (libteam.c:643): the
two `genl_connect` results, the family and multicast-group resolution
results (negative = failure), the `nl_socket_add_membership` result, and the
results of the two initial refreshes (`get_port_list` / `get_options`),
abstracted to their return codes. -/
structure InitEnv where
  connect_ok : Bool
  connect_event_ok : Bool
  family : Int
  grp_id : Int
  membership_err : Int
  port_list_err : Int
  options_err : Int
deriving DecidableEq

/-- `team_init` (libteam.c:643), modelled as the sequence of checks the C
code performs, each failing step returning its specific negative errno. -/
def team_init (env : InitEnv) (th : TeamHandle) (ifindex : Nat) :
    TeamHandle × Int :=
  if ifindex = 0 then (th, -ENOENT)
  else
    let th1 := { th with ifindex := ifindex }
    if env.connect_ok = false then (th1, -ENOTSUP)
    else if env.connect_event_ok = false then (th1, -ENOTSUP)
    else
      let th2 := { th1 with family := env.family }
      if env.family < 0 then (th2, -ENOENT)
      else if env.grp_id < 0 then (th2, -ENOENT)
      else if env.membership_err < 0 then (th2, -EINVAL)
      else if env.port_list_err ≠ 0 then (th2, -EINVAL)
      else if env.options_err ≠ 0 then (th2, -EINVAL)
      else (th2, 0)

/- ---------------------------------------------------------------------
   Shared lemmas about the dispatcher and the decoders.
--------------------------------------------------------------------- -/

theorem mark_items_map_handler (t : TeamChangeType)
    (items : List ChangeHandlerItem) :
    (mark_items t items).map (fun hi => hi.handler) =
      items.map (fun hi => hi.handler) := by
  unfold mark_items
  rw [List.map_map]
  apply List.map_congr_left
  intro a _
  by_cases h : t = TeamChangeType.all ∨ a.handler.type = t <;> simp [h]

theorem mark_items_of_ne_all (t : TeamChangeType)
    (ht : t ≠ TeamChangeType.all) (items : List ChangeHandlerItem) :
    mark_items t items = items.map (fun hi =>
      if hi.handler.type = t then { hi with call_this := true } else hi) := by
  unfold mark_items
  apply List.map_congr_left
  intro a _
  rw [if_congr (or_iff_right ht) rfl rfl]

theorem sweepItems_fst_map (t : TeamChangeType)
    (items : List ChangeHandlerItem) :
    ((sweepItems t items).1).map (fun hi => hi.handler) =
      items.map (fun hi => hi.handler) := by
  induction items with
  | nil => rfl
  | cons a rest ih =>
    by_cases h : (t = TeamChangeType.all ∨ a.handler.type = t) ∧ a.call_this = true
    · simp only [sweepItems, if_pos h, List.map_cons, ih]
    · simp only [sweepItems, if_neg h, List.map_cons, ih]

theorem sweepItems_snd_filter (t : TeamChangeType)
    (items : List ChangeHandlerItem) :
    (sweepItems t items).2 =
      (items.filter (fun hi =>
        decide ((t = TeamChangeType.all ∨ hi.handler.type = t) ∧
          hi.call_this = true))).map (fun hi => hi.handler.id) := by
  induction items with
  | nil => rfl
  | cons a rest ih =>
    by_cases h : (t = TeamChangeType.all ∨ a.handler.type = t) ∧ a.call_this = true
    · simp only [sweepItems, List.filter_cons, decide_eq_true_eq]
      rw [if_pos h, if_pos h, List.map_cons, ih]
    · simp only [sweepItems, List.filter_cons, decide_eq_true_eq]
      rw [if_neg h, if_neg h, ih]

theorem sweepItems_snd_sublist (t : TeamChangeType)
    (items : List ChangeHandlerItem) :
    ((sweepItems t items).2).Sublist
      (items.map (fun hi => hi.handler.id)) := by
  rw [sweepItems_snd_filter]
  exact (List.filter_sublist items).map _

theorem sweepItems_cleared (t : TeamChangeType)
    (items : List ChangeHandlerItem)
    (hnd : (items.map (fun hi => hi.handler.id)).Nodup) :
    ∀ hi ∈ (sweepItems t items).1,
      hi.handler.id ∈ (sweepItems t items).2 → hi.call_this = false := by
  induction items with
  | nil =>
    intro hi hmem
    simp [sweepItems] at hmem
  | cons a rest ih =>
    simp only [List.map_cons, List.nodup_cons] at hnd
    obtain ⟨hna, hnrest⟩ := hnd
    intro hi hmem hid
    by_cases h : (t = TeamChangeType.all ∨ a.handler.type = t) ∧ a.call_this = true
    · simp only [sweepItems, if_pos h] at hmem hid
      rcases List.mem_cons.mp hmem with rfl | hmem'
      · rfl
      · rcases List.mem_cons.mp hid with hEq | hid'
        · exfalso
          apply hna
          rw [← hEq]
          have hmap : hi.handler ∈
              ((sweepItems t rest).1).map (fun hi => hi.handler) :=
            List.mem_map_of_mem _ hmem'
          rw [sweepItems_fst_map] at hmap
          obtain ⟨x, hx, hxe⟩ := List.mem_map.mp hmap
          exact List.mem_map.mpr ⟨x, hx, by rw [hxe]⟩
        · exact ih hnrest hi hmem' hid'
    · simp only [sweepItems, if_neg h] at hmem hid
      rcases List.mem_cons.mp hmem with rfl | hmem'
      · exfalso
        exact hna ((sweepItems_snd_sublist t rest).subset hid)
      · exact ih hnrest hi hmem' hid

theorem sweepItems_not_pending (t : TeamChangeType)
    (items : List ChangeHandlerItem)
    (h : ∀ hi ∈ items, hi.call_this = false) :
    (sweepItems t items).2 = [] := by
  induction items with
  | nil => rfl
  | cons a rest ih =>
    have ha := h a (List.mem_cons_self a rest)
    have hcond : ¬ ((t = TeamChangeType.all ∨ a.handler.type = t) ∧
        a.call_this = true) := by
      simp [ha]
    simp only [sweepItems, if_neg hcond]
    exact ih (fun hi hmem => h hi (List.mem_cons_of_mem a hmem))

theorem __find_option_eq_none_iff (acc : List TeamOption) (nm : String) :
    __find_option acc nm = none ↔ ∀ o ∈ acc, o.name ≠ nm := by
  unfold __find_option
  rw [List.find?_eq_none]
  constructor
  · intro h o ho
    simpa using h o ho
  · intro h o ho
    simpa using h o ho

theorem decode_options_nodup (entries : List OptionAttrs) :
    ∀ (acc os : List TeamOption),
      (acc.map (fun o => o.name)).Nodup →
      decode_options acc entries = some os →
      (os.map (fun o => o.name)).Nodup := by
  induction entries with
  | nil =>
    intro acc os hacc h
    simp only [decode_options, Option.some.injEq] at h
    rw [← h]
    exact hacc
  | cons oa rest ih =>
    intro acc os hacc h
    by_cases hp : oa.parse_ok = false
    · simp [decode_options, hp] at h
    · cases hn : oa.name with
      | none => simp [decode_options, hp, hn] at h
      | some nm =>
        cases htc : oa.typeCode with
        | none => simp [decode_options, hp, hn, htc] at h
        | some tc =>
          cases hd : oa.dataPresent with
          | false => simp [decode_options, hp, hn, htc, hd] at h
          | true =>
            simp only [decode_options, hp, hn, htc, hd, if_false] at h
            by_cases hdup : (__find_option acc nm).isSome = true
            · rw [if_pos hdup] at h
              exact ih acc os hacc h
            · rw [if_neg hdup] at h
              have hnotmem : nm ∉ acc.map (fun o => o.name) := by
                intro hmem
                obtain ⟨o, ho, hoe⟩ := List.mem_map.mp hmem
                have hnone : __find_option acc nm = none :=
                  Option.not_isSome_iff_eq_none.mp hdup
                exact (__find_option_eq_none_iff acc nm).mp hnone o ho hoe
              by_cases h32 : tc = NLA_U32
              · rw [if_pos h32] at h
                refine ih _ os ?_ h
                simp [List.nodup_append, hacc, hnotmem]
              · rw [if_neg h32] at h
                by_cases hstr : tc = NLA_STRING
                · rw [if_pos hstr] at h
                  refine ih _ os ?_ h
                  simp [List.nodup_append, hacc, hnotmem]
                · rw [if_neg hstr] at h
                  exact ih acc os hacc h



theorem get_port_list_handler_handlers (junk : Nat) (th : TeamHandle)
    (msg : PortListMsg) :
    ((get_port_list_handler junk th msg).change_handler_list).map
        (fun hi => hi.handler) =
      th.change_handler_list.map (fun hi => hi.handler) := by
  by_cases hif : msg.team_ifindex.getD junk ≠ th.ifindex
  · simp [get_port_list_handler, hif]
  · cases hmp : msg.port_list with
    | none => simp [get_port_list_handler, hif, hmp]
    | some entries =>
      cases hdp : decode_ports entries with
      | none => simp [get_port_list_handler, hif, hmp, hdp]
      | some ps =>
        simp [get_port_list_handler, hif, hmp, hdp, set_call_change_handlers,
          mark_items_map_handler]

theorem get_options_handler_handlers (junk : Nat) (th : TeamHandle)
    (msg : OptionListMsg) :
    ((get_options_handler junk th msg).change_handler_list).map
        (fun hi => hi.handler) =
      th.change_handler_list.map (fun hi => hi.handler) := by
  by_cases hif : msg.team_ifindex.getD junk ≠ th.ifindex
  · simp [get_options_handler, hif]
  · cases hmp : msg.option_list with
    | none => simp [get_options_handler, hif, hmp]
    | some entries =>
      cases hdp : decode_options [] entries with
      | none => simp [get_options_handler, hif, hmp, hdp]
      | some os =>
        simp [get_options_handler, hif, hmp, hdp, set_call_change_handlers,
          mark_items_map_handler]

theorem event_handler_handlers (junk : Nat) (th : TeamHandle) (m : EventMsg) :
    ((event_handler junk th m).change_handler_list).map (fun hi => hi.handler) =
      th.change_handler_list.map (fun hi => hi.handler) := by
  cases m with
  | portListGet msg => exact get_port_list_handler_handlers junk th msg
  | optionsGet msg => exact get_options_handler_handlers junk th msg
  | other => rfl

theorem foldl_event_handlers (junk : Nat) (msgs : List EventMsg) :
    ∀ th : TeamHandle,
      ((msgs.foldl (event_handler junk) th).change_handler_list).map
          (fun hi => hi.handler) =
        th.change_handler_list.map (fun hi => hi.handler) := by
  induction msgs with
  | nil => intro th; rfl
  | cons m rest ih =>
    intro th
    rw [List.foldl_cons, ih (event_handler junk th m),
      event_handler_handlers junk th m]

theorem get_port_list_handler_option_list (junk : Nat) (th : TeamHandle)
    (msg : PortListMsg) :
    (get_port_list_handler junk th msg).option_list = th.option_list := by
  by_cases hif : msg.team_ifindex.getD junk ≠ th.ifindex
  · simp [get_port_list_handler, hif]
  · cases hmp : msg.port_list with
    | none => simp [get_port_list_handler, hif, hmp]
    | some entries =>
      cases hdp : decode_ports entries with
      | none => simp [get_port_list_handler, hif, hmp, hdp]
      | some ps =>
        simp [get_port_list_handler, hif, hmp, hdp, set_call_change_handlers]

theorem get_options_handler_names_nodup (junk : Nat) (th : TeamHandle)
    (msg : OptionListMsg)
    (h : (th.option_list.map (fun o => o.name)).Nodup) :
    ((get_options_handler junk th msg).option_list.map
      (fun o => o.name)).Nodup := by
  by_cases hif : msg.team_ifindex.getD junk ≠ th.ifindex
  · simpa [get_options_handler, hif] using h
  · cases hmp : msg.option_list with
    | none => simpa [get_options_handler, hif, hmp] using h
    | some entries =>
      cases hdp : decode_options [] entries with
      | none => simpa [get_options_handler, hif, hmp, hdp] using h
      | some os =>
        have hn := decode_options_nodup entries [] os (by simp) hdp
        simpa [get_options_handler, hif, hmp, hdp, set_call_change_handlers]
          using hn

theorem event_handler_names_nodup (junk : Nat) (th : TeamHandle) (m : EventMsg)
    (h : (th.option_list.map (fun o => o.name)).Nodup) :
    ((event_handler junk th m).option_list.map (fun o => o.name)).Nodup := by
  cases m with
  | portListGet msg =>
    rw [event_handler, get_port_list_handler_option_list]
    exact h
  | optionsGet msg => exact get_options_handler_names_nodup junk th msg h
  | other => exact h

theorem foldl_event_names_nodup (junk : Nat) (msgs : List EventMsg) :
    ∀ th : TeamHandle,
      (th.option_list.map (fun o => o.name)).Nodup →
      (((msgs.foldl (event_handler junk) th).option_list.map
        (fun o => o.name)).Nodup) := by
  induction msgs with
  | nil => intro th h; exact h
  | cons m rest ih =>
    intro th h
    rw [List.foldl_cons]
    exact ih (event_handler junk th m) (event_handler_names_nodup junk th m h)

/- ---------------------------------------------------------------------
   Claim C1.
--------------------------------------------------------------------- -/

def c1Entry : PortAttrs :=
  { parse_ok := true, ifindex := some 11, alloc_ok := true, changed := false,
    linkup := true, speed := some 1000, duplex := some 1 }

def c1Msg : PortListMsg :=
  { team_ifindex := some 7, port_list := some [c1Entry] }

def c1Hp : TeamChangeHandler := { id := 1, type := TeamChangeType.port }

def c1Ha : TeamChangeHandler := { id := 2, type := TeamChangeType.all }

/-- Register the PORT handler first, then the ALL handler, on a handle bound
to ifindex 7 with no other handlers. -/
def c1Th : TeamHandle :=
  (team_change_handler_register true
    (team_change_handler_register true { team_alloc with ifindex := 7 }
      c1Hp).1 c1Ha).1

/-- C1, counterexample: a successful port-list refresh (the port list is
replaced) marks only the PORT-class handler pending; the registered
ALL-class handler (id 2) stays unmarked, and after a pump draining two
port-list messages the fire trace is `[1]` — the ALL handler never fires,
contradicting the claim that it is marked and fired once. -/
theorem C1_counterexample :
    (get_port_list_handler 0 c1Th c1Msg).port_list =
      [{ ifindex := 11, speed := 1000, duplex := 1, changed := false,
         linkup := true }] ∧
    (get_port_list_handler 0 c1Th c1Msg).change_handler_list =
      [{ call_this := false, handler := c1Ha },
       { call_this := true, handler := c1Hp }] ∧
    (team_process_event 0 c1Th
      [EventMsg.portListGet c1Msg, EventMsg.portListGet c1Msg]).2 = [1] ∧
    (2 : Nat) ∉ (team_process_event 0 c1Th
      [EventMsg.portListGet c1Msg, EventMsg.portListGet c1Msg]).2 := by
  decide

/-- C1 (amended): after a successful refresh of class C ∈ {PORT, OPTION},
exactly the handlers whose declared class equals C are marked pending; a
handler of class ALL (or of the other class) keeps its previous pending
flag, because the mark condition compares the refresh class, not the
handler's class, against ALL.  Consequently in the pump scenario H_p fires
once and H_a does not fire. -/
theorem C1_refresh_marks_exactly_its_class (junk : Nat) (th : TeamHandle) :
    (∀ (msg : PortListMsg) (entries : List PortAttrs) (ps : List TeamPort),
      msg.team_ifindex = some th.ifindex →
      msg.port_list = some entries →
      decode_ports entries = some ps →
      (get_port_list_handler junk th msg).change_handler_list =
        th.change_handler_list.map (fun hi =>
          if hi.handler.type = TeamChangeType.port then
            { hi with call_this := true }
          else hi)) ∧
    (∀ (msg : OptionListMsg) (entries : List OptionAttrs) (os : List TeamOption),
      msg.team_ifindex = some th.ifindex →
      msg.option_list = some entries →
      decode_options [] entries = some os →
      (get_options_handler junk th msg).change_handler_list =
        th.change_handler_list.map (fun hi =>
          if hi.handler.type = TeamChangeType.option then
            { hi with call_this := true }
          else hi)) := by
  constructor
  · intro msg entries ps h1 h2 h3
    have hif : ¬ (msg.team_ifindex.getD junk ≠ th.ifindex) := by simp [h1]
    simp [get_port_list_handler, hif, h2, h3, set_call_change_handlers,
      mark_items_of_ne_all TeamChangeType.port (by decide)]
  · intro msg entries os h1 h2 h3
    have hif : ¬ (msg.team_ifindex.getD junk ≠ th.ifindex) := by simp [h1]
    simp [get_options_handler, hif, h2, h3, set_call_change_handlers,
      mark_items_of_ne_all TeamChangeType.option (by decide)]

/-- C1 witness: the amended theorem applied to the concrete scenario. -/
theorem C1_refresh_marks_exactly_its_class_witness :
    (get_port_list_handler 0 c1Th c1Msg).change_handler_list =
      c1Th.change_handler_list.map (fun hi =>
        if hi.handler.type = TeamChangeType.port then
          { hi with call_this := true }
        else hi) :=
  (C1_refresh_marks_exactly_its_class 0 c1Th).1 c1Msg [c1Entry]
    [{ ifindex := 11, speed := 1000, duplex := 1, changed := false,
       linkup := true }] rfl rfl rfl

/- ---------------------------------------------------------------------
   Claim C2.
--------------------------------------------------------------------- -/

def c2Entry : PortAttrs :=
  { parse_ok := true, ifindex := some 12, alloc_ok := true, changed := true,
    linkup := false, speed := none, duplex := none }

def c2Msg : PortListMsg :=
  { team_ifindex := some 7, port_list := some [c2Entry] }

def c2Th : TeamHandle :=
  { team_alloc with
    ifindex := 7,
    change_handler_list :=
      [{ call_this := false, handler := { id := 5, type := TeamChangeType.port } },
       { call_this := false, handler := { id := 6, type := TeamChangeType.option } }] }

/-- C2: in one `team_process_event` pump — however many matching messages
the drain delivered and marked — the invocation trace of the fire sweep
contains each registered handler at most once (the registry holds distinct
handler identities), and every fired handler's `call_this` flag is cleared
by the sweep. -/
theorem C2_fire_at_most_once_per_pump (junk : Nat) (th : TeamHandle)
    (msgs : List EventMsg)
    (hnd : (th.change_handler_list.map (fun hi => hi.handler.id)).Nodup) :
    ((team_process_event junk th msgs).2).Nodup ∧
    (∀ hi ∈ (team_process_event junk th msgs).1.change_handler_list,
      hi.handler.id ∈ (team_process_event junk th msgs).2 →
      hi.call_this = false) := by
  have hids : (((msgs.foldl (event_handler junk) th).change_handler_list).map
      (fun hi => hi.handler.id)).Nodup := by
    have hmap := congrArg (List.map (fun h : TeamChangeHandler => h.id))
      (foldl_event_handlers junk msgs th)
    rw [List.map_map, List.map_map] at hmap
    have hmap' : ((msgs.foldl (event_handler junk) th).change_handler_list).map
        (fun hi => hi.handler.id) =
        th.change_handler_list.map (fun hi => hi.handler.id) := hmap
    rw [hmap']
    exact hnd
  constructor
  · have hsub := sweepItems_snd_sublist TeamChangeType.all
      ((msgs.foldl (event_handler junk) th).change_handler_list)
    simp only [team_process_event, check_call_change_handlers]
    exact List.Nodup.sublist hsub hids
  · intro hi hmem hfired
    simp only [team_process_event, check_call_change_handlers] at hmem hfired
    exact sweepItems_cleared TeamChangeType.all _ hids hi hmem hfired

/-- C2 witness: the theorem applied to a concrete pump of one port-list
message against a handle with two registered handlers. -/
theorem C2_fire_at_most_once_per_pump_witness :
    ((team_process_event 0 c2Th [EventMsg.portListGet c2Msg]).2).Nodup ∧
    (∀ hi ∈ (team_process_event 0 c2Th
        [EventMsg.portListGet c2Msg]).1.change_handler_list,
      hi.handler.id ∈ (team_process_event 0 c2Th
        [EventMsg.portListGet c2Msg]).2 →
      hi.call_this = false) :=
  C2_fire_at_most_once_per_pump 0 c2Th [EventMsg.portListGet c2Msg] (by decide)

/- ---------------------------------------------------------------------
   Claim C3.
--------------------------------------------------------------------- -/

def c3Old : TeamOption :=
  { type := TeamOptionType.string, changed := false, name := "old",
    data := OptionData.strval "x" }

def c3Th : TeamHandle :=
  { team_alloc with ifindex := 7, option_list := [c3Old] }

/-- An option entry whose required name attribute is absent. -/
def c3BadEntry : OptionAttrs :=
  { parse_ok := true, name := none, typeCode := some NLA_STRING,
    dataPresent := true, payloadU32 := 0, payloadStr := "y", changed := false }

/-- A well-formed option entry following the anomalous one. -/
def c3GoodEntry : OptionAttrs :=
  { parse_ok := true, name := some "fresh", typeCode := some NLA_STRING,
    dataPresent := true, payloadU32 := 0, payloadStr := "z", changed := false }

def c3Msg : OptionListMsg :=
  { team_ifindex := some 7, option_list := some [c3BadEntry, c3GoodEntry] }

/-- C3, counterexample: an option-list message holds an entry with a missing
required attribute followed by an acceptable entry.  The claim says only the
offending entry is skipped and the accepted entries (here `"fresh"`) replace
the old list; the code instead aborts the refresh (`return NL_SKIP` from the
entry loop), leaving the previous list `["old"]` in place — even though the
acceptable entry alone decodes fine. -/
theorem C3_counterexample :
    get_options_handler 0 c3Th c3Msg = c3Th ∧
    c3Th.option_list = [c3Old] ∧
    decode_options [] [c3GoodEntry] =
      some [{ type := TeamOptionType.string, changed := false, name := "fresh",
              data := OptionData.strval "z" }] ∧
    c3Old.name ≠ "fresh" := by
  decide

/-- C3 (amended): a duplicate option name and an unknown netlink type code
skip only the offending entry (the decode continues unchanged over the
rest), but a nested-parse failure or a missing required name/type/data
attribute aborts the whole message's decode, and an aborted decode leaves
the handle — previous option list included — entirely unchanged. -/
theorem C3_decoder_anomaly_granularity (junk : Nat) (th : TeamHandle)
    (msg : OptionListMsg) (entries : List OptionAttrs)
    (acc : List TeamOption) (e : OptionAttrs) (rest : List OptionAttrs) :
    (∀ (nm : String) (tc : Nat), e.parse_ok = true → e.name = some nm →
      e.typeCode = some tc → e.dataPresent = true →
      (__find_option acc nm).isSome = true →
      decode_options acc (e :: rest) = decode_options acc rest) ∧
    (∀ (nm : String) (tc : Nat), e.parse_ok = true → e.name = some nm →
      e.typeCode = some tc → e.dataPresent = true →
      (__find_option acc nm).isSome = false →
      tc ≠ NLA_U32 → tc ≠ NLA_STRING →
      decode_options acc (e :: rest) = decode_options acc rest) ∧
    ((e.parse_ok = false ∨ e.name = none ∨ e.typeCode = none ∨
        e.dataPresent = false) →
      decode_options acc (e :: rest) = none) ∧
    (msg.option_list = some entries → decode_options [] entries = none →
      get_options_handler junk th msg = th) := by
  refine ⟨?_, ?_, ?_, ?_⟩
  · intro nm tc hp hn htc hd hdup
    simp [decode_options, hp, hn, htc, hd, hdup]
  · intro nm tc hp hn htc hd hdup h32 hstr
    simp [decode_options, hp, hn, htc, hd, hdup, h32, hstr]
  · intro habort
    rcases habort with hp | hn | htc | hd
    · simp [decode_options, hp]
    · cases hp : e.parse_ok with
      | false => simp [decode_options, hp]
      | true => simp [decode_options, hp, hn]
    · cases hp : e.parse_ok with
      | false => simp [decode_options, hp]
      | true =>
        cases hn : e.name with
        | none => simp [decode_options, hp, hn]
        | some nm => simp [decode_options, hp, hn, htc]
    · cases hp : e.parse_ok with
      | false => simp [decode_options, hp]
      | true =>
        cases hn : e.name with
        | none => simp [decode_options, hp, hn]
        | some nm =>
          cases htc : e.typeCode with
          | none => simp [decode_options, hp, hn, htc]
          | some tc => simp [decode_options, hp, hn, htc, hd]
  · intro hml hdec
    by_cases hif : msg.team_ifindex.getD junk ≠ th.ifindex
    · simp [get_options_handler, hif]
    · simp [get_options_handler, hif, hml, hdec]

/-- C3 witness: the amended theorem applied to the concrete aborting message
(missing-name entry) and to the concrete handle. -/
theorem C3_decoder_anomaly_granularity_witness :
    decode_options [] ([c3BadEntry, c3GoodEntry] : List OptionAttrs) = none ∧
    get_options_handler 0 c3Th c3Msg = c3Th :=
  ⟨(C3_decoder_anomaly_granularity 0 c3Th c3Msg [c3BadEntry, c3GoodEntry] []
      c3BadEntry [c3GoodEntry]).2.2.1 (Or.inr (Or.inl rfl)),
   (C3_decoder_anomaly_granularity 0 c3Th c3Msg [c3BadEntry, c3GoodEntry] []
      c3BadEntry [c3GoodEntry]).2.2.2 rfl (by decide)⟩

/- ---------------------------------------------------------------------
   Claim C4.
--------------------------------------------------------------------- -/

/-- C4: a port-list or option-list message whose team-ifindex attribute is
present but differs from the handle's bound ifindex is skipped silently —
the whole handle state (both cached lists and every pending flag) is
unchanged — and a pump that drains only such a message fires no handler
when none was already pending. -/
theorem C4_cross_ifindex_skip (junk : Nat) (th : TeamHandle) (k : Nat)
    (pmsg : PortListMsg) (omsg : OptionListMsg)
    (hk : k ≠ th.ifindex)
    (hp : pmsg.team_ifindex = some k)
    (ho : omsg.team_ifindex = some k) :
    get_port_list_handler junk th pmsg = th ∧
    get_options_handler junk th omsg = th ∧
    ((∀ hi ∈ th.change_handler_list, hi.call_this = false) →
      (team_process_event junk th [EventMsg.portListGet pmsg]).2 = [] ∧
      (team_process_event junk th [EventMsg.optionsGet omsg]).2 = []) := by
  have h1 : get_port_list_handler junk th pmsg = th := by
    simp [get_port_list_handler, hp, hk]
  have h2 : get_options_handler junk th omsg = th := by
    simp [get_options_handler, ho, hk]
  refine ⟨h1, h2, ?_⟩
  intro hquiet
  constructor
  · simp only [team_process_event, List.foldl_cons, List.foldl_nil,
      event_handler, h1, check_call_change_handlers]
    exact sweepItems_not_pending TeamChangeType.all th.change_handler_list hquiet
  · simp only [team_process_event, List.foldl_cons, List.foldl_nil,
      event_handler, h2, check_call_change_handlers]
    exact sweepItems_not_pending TeamChangeType.all th.change_handler_list hquiet

def c4Th : TeamHandle :=
  { team_alloc with
    ifindex := 7,
    port_list := [{ ifindex := 11, speed := 1000, duplex := 1,
                    changed := false, linkup := true }],
    change_handler_list :=
      [{ call_this := false, handler := { id := 3, type := TeamChangeType.all } }] }

def c4PMsg : PortListMsg :=
  { team_ifindex := some 99,
    port_list := some [{ parse_ok := true, ifindex := some 12, alloc_ok := true,
                         changed := false, linkup := false, speed := none,
                         duplex := none }] }

def c4OMsg : OptionListMsg :=
  { team_ifindex := some 99,
    option_list := some [{ parse_ok := true, name := some "mode",
                           typeCode := some NLA_STRING, dataPresent := true,
                           payloadU32 := 0, payloadStr := "activebackup",
                           changed := false }] }

/-- C4 witness: the theorem applied to messages carrying team ifindex 99
against a handle bound to ifindex 7 whose one handler is not pending. -/
theorem C4_cross_ifindex_skip_witness :
    get_port_list_handler 0 c4Th c4PMsg = c4Th ∧
    get_options_handler 0 c4Th c4OMsg = c4Th ∧
    (team_process_event 0 c4Th [EventMsg.portListGet c4PMsg]).2 = [] ∧
    (team_process_event 0 c4Th [EventMsg.optionsGet c4OMsg]).2 = [] :=
  ⟨(C4_cross_ifindex_skip 0 c4Th 99 c4PMsg c4OMsg (by decide) rfl rfl).1,
   (C4_cross_ifindex_skip 0 c4Th 99 c4PMsg c4OMsg (by decide) rfl rfl).2.1,
   ((C4_cross_ifindex_skip 0 c4Th 99 c4PMsg c4OMsg (by decide) rfl rfl).2.2
      (by decide)).1,
   ((C4_cross_ifindex_skip 0 c4Th 99 c4PMsg c4OMsg (by decide) rfl rfl).2.2
      (by decide)).2⟩

/- ---------------------------------------------------------------------
   Claim C5.
--------------------------------------------------------------------- -/

/-- C5: option names stay pairwise distinct across any pump (a refresh
either leaves the list or replaces it by a deduplicated one), and when the
decoder meets an entry whose name is already in the list built so far, that
entry is dropped and the decode continues unchanged — the first occurrence
is kept, the second is not. -/
theorem C5_option_names_unique (junk : Nat) (th : TeamHandle)
    (msgs : List EventMsg)
    (h : (th.option_list.map (fun o => o.name)).Nodup) :
    (((team_process_event junk th msgs).1.option_list.map
      (fun o => o.name)).Nodup) ∧
    (∀ (acc : List TeamOption) (e : OptionAttrs) (rest : List OptionAttrs)
        (nm : String) (tc : Nat),
      e.parse_ok = true → e.name = some nm → e.typeCode = some tc →
      e.dataPresent = true → (__find_option acc nm).isSome = true →
      decode_options acc (e :: rest) = decode_options acc rest) := by
  constructor
  · have hfold := foldl_event_names_nodup junk msgs th h
    simp only [team_process_event, check_call_change_handlers]
    exact hfold
  · intro acc e rest nm tc hp hn htc hd hdup
    simp [decode_options, hp, hn, htc, hd, hdup]

def c5Dup1 : OptionAttrs :=
  { parse_ok := true, name := some "mode", typeCode := some NLA_STRING,
    dataPresent := true, payloadU32 := 0, payloadStr := "activebackup",
    changed := false }

def c5Dup2 : OptionAttrs :=
  { parse_ok := true, name := some "mode", typeCode := some NLA_STRING,
    dataPresent := true, payloadU32 := 0, payloadStr := "roundrobin",
    changed := false }

def c5Msg : OptionListMsg :=
  { team_ifindex := some 7, option_list := some [c5Dup1, c5Dup2] }

def c5Th : TeamHandle :=
  { team_alloc with
    ifindex := 7,
    change_handler_list :=
      [{ call_this := false,
         handler := { id := 4, type := TeamChangeType.option } }] }

/-- C5 witness: the theorem applied to the pump of a message carrying two
entries named `mode`; names in the refreshed cache are distinct. -/
theorem C5_option_names_unique_witness :
    (((team_process_event 0 c5Th [EventMsg.optionsGet c5Msg]).1.option_list.map
      (fun o => o.name)).Nodup) ∧
    (∀ (acc : List TeamOption) (e : OptionAttrs) (rest : List OptionAttrs)
        (nm : String) (tc : Nat),
      e.parse_ok = true → e.name = some nm → e.typeCode = some tc →
      e.dataPresent = true → (__find_option acc nm).isSome = true →
      decode_options acc (e :: rest) = decode_options acc rest) :=
  C5_option_names_unique 0 c5Th [EventMsg.optionsGet c5Msg] (by decide)

/- ---------------------------------------------------------------------
   Claim C6.
--------------------------------------------------------------------- -/

/-- C6: `team_init` returns the specific negative errno of the first failing
step — `-ENOENT` for a zero ifindex, `-ENOTSUP` for either socket connect
failure, `-ENOENT` for family or multicast-group resolution failure,
`-EINVAL` for membership failure, `-EINVAL` for failure of either initial
refresh — and 0 when every step succeeds. -/
theorem C6_init_error_codes (env : InitEnv) (th : TeamHandle) (ifindex : Nat) :
    (ifindex = 0 → (team_init env th ifindex).2 = -ENOENT) ∧
    (ifindex ≠ 0 → env.connect_ok = false →
      (team_init env th ifindex).2 = -ENOTSUP) ∧
    (ifindex ≠ 0 → env.connect_ok = true → env.connect_event_ok = false →
      (team_init env th ifindex).2 = -ENOTSUP) ∧
    (ifindex ≠ 0 → env.connect_ok = true → env.connect_event_ok = true →
      env.family < 0 → (team_init env th ifindex).2 = -ENOENT) ∧
    (ifindex ≠ 0 → env.connect_ok = true → env.connect_event_ok = true →
      ¬ env.family < 0 → env.grp_id < 0 →
      (team_init env th ifindex).2 = -ENOENT) ∧
    (ifindex ≠ 0 → env.connect_ok = true → env.connect_event_ok = true →
      ¬ env.family < 0 → ¬ env.grp_id < 0 → env.membership_err < 0 →
      (team_init env th ifindex).2 = -EINVAL) ∧
    (ifindex ≠ 0 → env.connect_ok = true → env.connect_event_ok = true →
      ¬ env.family < 0 → ¬ env.grp_id < 0 → ¬ env.membership_err < 0 →
      env.port_list_err ≠ 0 → (team_init env th ifindex).2 = -EINVAL) ∧
    (ifindex ≠ 0 → env.connect_ok = true → env.connect_event_ok = true →
      ¬ env.family < 0 → ¬ env.grp_id < 0 → ¬ env.membership_err < 0 →
      env.port_list_err = 0 → env.options_err ≠ 0 →
      (team_init env th ifindex).2 = -EINVAL) ∧
    (ifindex ≠ 0 → env.connect_ok = true → env.connect_event_ok = true →
      ¬ env.family < 0 → ¬ env.grp_id < 0 → ¬ env.membership_err < 0 →
      env.port_list_err = 0 → env.options_err = 0 →
      (team_init env th ifindex).2 = 0) := by
  refine ⟨?_, ?_, ?_, ?_, ?_, ?_, ?_, ?_, ?_⟩
  · intro h0
    simp [team_init, h0]
  · intro h0 hc
    simp [team_init, h0, hc]
  · intro h0 hc hce
    simp [team_init, h0, hc, hce]
  · intro h0 hc hce hf
    simp [team_init, h0, hc, hce, hf]
  · intro h0 hc hce hf hg
    simp [team_init, h0, hc, hce, hf, hg]
  · intro h0 hc hce hf hg hm
    simp [team_init, h0, hc, hce, hf, hg, hm]
  · intro h0 hc hce hf hg hm hpl
    simp [team_init, h0, hc, hce, hf, hg, hm, hpl]
  · intro h0 hc hce hf hg hm hpl hop
    simp [team_init, h0, hc, hce, hf, hg, hm, hpl, hop]
  · intro h0 hc hce hf hg hm hpl hop
    simp [team_init, h0, hc, hce, hf, hg, hm, hpl, hop]

/-- An environment where every init step succeeds. -/
def c6EnvOk : InitEnv :=
  { connect_ok := true, connect_event_ok := true, family := 20, grp_id := 5,
    membership_err := 0, port_list_err := 0, options_err := 0 }

/-- An environment where family resolution fails. -/
def c6EnvNoFam : InitEnv :=
  { connect_ok := true, connect_event_ok := true, family := -2, grp_id := 5,
    membership_err := 0, port_list_err := 0, options_err := 0 }

/-- C6 witness: the theorem applied to a fully-successful environment, to a
family-resolution failure, and to the zero ifindex. -/
theorem C6_init_error_codes_witness :
    (team_init c6EnvOk team_alloc 7).2 = 0 ∧
    (team_init c6EnvNoFam team_alloc 7).2 = -ENOENT ∧
    (team_init c6EnvOk team_alloc 0).2 = -ENOENT :=
  ⟨(C6_init_error_codes c6EnvOk team_alloc 7).2.2.2.2.2.2.2.2 (by decide) rfl
      rfl (by decide) (by decide) (by decide) rfl rfl,
   (C6_init_error_codes c6EnvNoFam team_alloc 7).2.2.2.1 (by decide) rfl rfl
      (by decide),
   (C6_init_error_codes c6EnvOk team_alloc 0).1 rfl⟩

/- ---------------------------------------------------------------------
   Claim C7.
--------------------------------------------------------------------- -/

def c7Msg : PortListMsg :=
  { team_ifindex := some 7,
    port_list := some [{ parse_ok := true, ifindex := some 11, alloc_ok := true,
                         changed := false, linkup := true, speed := none,
                         duplex := none }] }

def c7HandlerA : TeamChangeHandler := { id := 1, type := TeamChangeType.port }

def c7HandlerB : TeamChangeHandler := { id := 2, type := TeamChangeType.port }

/-- Handler A (id 1) registered first, handler B (id 2) registered second. -/
def c7Th : TeamHandle :=
  (team_change_handler_register true
    (team_change_handler_register true { team_alloc with ifindex := 7 }
      c7HandlerA).1 c7HandlerB).1

/-- C7, counterexample: handler A (id 1) is registered before handler B
(id 2); after a port-list refresh marks both pending, one pump's fire sweep
invokes them in the order `[2, 1]` — B before A — because registration
inserts at the head of the registry (`list_add`), not at the tail.  This
contradicts the claimed registration-order firing `[1, 2]`. -/
theorem C7_counterexample :
    (team_process_event 0 c7Th [EventMsg.portListGet c7Msg]).2 = [2, 1] ∧
    ([2, 1] : List Nat) ≠ [1, 2] := by
  decide

/-- C7 (amended): within one sweep handlers fire in registry-visit order,
but registration prepends — the most recently registered handler is visited,
and hence fired, first: fire order is reverse registration order. -/
theorem C7_fire_order_reverse_registration (th : TeamHandle)
    (handler : TeamChangeHandler) (t : TeamChangeType)
    (hnew : find_change_handler th.change_handler_list handler = none) :
    ((team_change_handler_register true th handler).1.change_handler_list =
      { call_this := false, handler := handler } ::
        th.change_handler_list) ∧
    (∀ items : List ChangeHandlerItem,
      (sweepItems t items).2 =
        (items.filter (fun hi =>
          decide ((t = TeamChangeType.all ∨ hi.handler.type = t) ∧
            hi.call_this = true))).map (fun hi => hi.handler.id)) := by
  constructor
  · simp [team_change_handler_register, hnew]
  · intro items
    exact sweepItems_snd_filter t items

def c7HandlerC : TeamChangeHandler := { id := 9, type := TeamChangeType.all }

/-- C7 witness: the amended theorem applied to the concrete registry. -/
theorem C7_fire_order_reverse_registration_witness :
    ((team_change_handler_register true c7Th c7HandlerC).1.change_handler_list =
      { call_this := false, handler := c7HandlerC } :: c7Th.change_handler_list) ∧
    (∀ items : List ChangeHandlerItem,
      (sweepItems TeamChangeType.all items).2 =
        (items.filter (fun hi =>
          decide ((TeamChangeType.all = TeamChangeType.all ∨
            hi.handler.type = TeamChangeType.all) ∧
            hi.call_this = true))).map (fun hi => hi.handler.id)) :=
  C7_fire_order_reverse_registration c7Th c7HandlerC TeamChangeType.all
    (by decide)

/- ---------------------------------------------------------------------
   Claim C8.
--------------------------------------------------------------------- -/

theorem set_option_value_frame (env : SendEnv) (th : TeamHandle)
    (opt_name : String) (d : OptionData) (t : TeamOptionType) :
    (set_option_value env th opt_name d t).1.option_list = th.option_list ∧
    (set_option_value env th opt_name d t).1.port_list = th.port_list := by
  simp only [set_option_value, send_and_recv]
  by_cases ha : env.alloc_ok = false
  · simp [ha]
  · by_cases hpk : env.put_ok = false
    · simp [ha, hpk]
    · by_cases hs : env.send_err < 0
      · simp [ha, hpk, hs]
      · simp [ha, hpk, hs]

/-- C8: the two by-name setters encode and send one option-set command and
leave the local cache untouched — after any call, with any exchange outcome,
the handle's option list, the answer of a by-name cache lookup, and the port
list are exactly what they were before the call. -/
theorem C8_setters_do_not_update_cache (env : SendEnv) (th : TeamHandle)
    (opt_name nm : String) (val : Nat) (str : String) :
    ((team_set_option_value_by_name_u32 env th opt_name val).1.option_list =
      th.option_list) ∧
    ((team_set_option_value_by_name_string env th opt_name str).1.option_list =
      th.option_list) ∧
    (team_get_option_by_name
        (team_set_option_value_by_name_u32 env th opt_name val).1 nm =
      team_get_option_by_name th nm) ∧
    (team_get_option_by_name
        (team_set_option_value_by_name_string env th opt_name str).1 nm =
      team_get_option_by_name th nm) ∧
    ((team_set_option_value_by_name_u32 env th opt_name val).1.port_list =
      th.port_list) := by
  have hu := set_option_value_frame env th opt_name (OptionData.u32val val)
    TeamOptionType.u32
  have hst := set_option_value_frame env th opt_name (OptionData.strval str)
    TeamOptionType.string
  refine ⟨hu.1, hst.1, ?_, ?_, hu.2⟩
  · simp only [team_get_option_by_name, team_set_option_value_by_name_u32]
    rw [hu.1]
  · simp only [team_get_option_by_name, team_set_option_value_by_name_string]
    rw [hst.1]

/- ---------------------------------------------------------------------
   Claim C9.
--------------------------------------------------------------------- -/

/-- C9: registration fails with `-EEXIST` when the handler identity is
already present and with `-ENOMEM` on allocation failure, otherwise adds a
registration with a cleared pending flag and returns 0; unregistering an
unknown handler is a no-op, and unregistering a registered handler removes
exactly that registration (in particular register-then-unregister restores
the original registry). -/
theorem C9_register_unregister (th : TeamHandle)
    (handler : TeamChangeHandler) (alloc_ok : Bool) :
    ((find_change_handler th.change_handler_list handler).isSome = true →
      team_change_handler_register alloc_ok th handler = (th, -EEXIST)) ∧
    ((find_change_handler th.change_handler_list handler).isSome = false →
      alloc_ok = false →
      team_change_handler_register alloc_ok th handler = (th, -ENOMEM)) ∧
    ((find_change_handler th.change_handler_list handler).isSome = false →
      alloc_ok = true →
      team_change_handler_register alloc_ok th handler =
        ({ th with change_handler_list :=
            { call_this := false, handler := handler } ::
              th.change_handler_list }, 0)) ∧
    ((find_change_handler th.change_handler_list handler).isSome = false →
      team_change_handler_unregister th handler = th) ∧
    ((find_change_handler th.change_handler_list handler).isSome = true →
      team_change_handler_unregister th handler =
        { th with change_handler_list := th.change_handler_list.eraseP (fun hi => hi.handler.id == handler.id) }) ∧
    ((find_change_handler th.change_handler_list handler).isSome = false →
      team_change_handler_unregister
        (team_change_handler_register true th handler).1 handler = th) := by
  refine ⟨?_, ?_, ?_, ?_, ?_, ?_⟩
  · intro hf
    simp [team_change_handler_register, hf]
  · intro hf ha
    simp [team_change_handler_register, hf, ha]
  · intro hf ha
    simp [team_change_handler_register, hf, ha]
  · intro hf
    have hnone : find_change_handler th.change_handler_list handler = none :=
      Option.not_isSome_iff_eq_none.mp (by simp [hf])
    simp [team_change_handler_unregister, hnone]
  · intro hf
    obtain ⟨x, hx⟩ := Option.isSome_iff_exists.mp hf
    simp [team_change_handler_unregister, hx]
  · intro hf
    have hreg : (team_change_handler_register true th handler).1 =
        { th with change_handler_list :=
            { call_this := false, handler := handler } ::
              th.change_handler_list } := by
      simp [team_change_handler_register, hf]
    rw [hreg]
    have hhead : find_change_handler
        ({ call_this := false, handler := handler } ::
          th.change_handler_list) handler =
        some { call_this := false, handler := handler } := by
      simp [find_change_handler]
    simp [team_change_handler_unregister, hhead, List.eraseP_cons_of_pos]

def c9Th : TeamHandle :=
  { team_alloc with
    ifindex := 7,
    change_handler_list :=
      [{ call_this := false,
         handler := { id := 8, type := TeamChangeType.option } }] }

def c9New : TeamChangeHandler := { id := 9, type := TeamChangeType.port }

def c9Old : TeamChangeHandler := { id := 8, type := TeamChangeType.option }

/-- C9 witness: the theorem applied to a concrete registry with one
registered handler (id 8): re-registering id 8 yields `-EEXIST`,
registering id 9 succeeds with a cleared pending flag, unregistering the
unknown id 9 is a no-op, and register-then-unregister of id 9 restores the
registry. -/
theorem C9_register_unregister_witness :
    (team_change_handler_register true c9Th c9Old = (c9Th, -EEXIST)) ∧
    (team_change_handler_register true c9Th c9New =
      ({ c9Th with change_handler_list :=
          { call_this := false, handler := c9New } ::
            c9Th.change_handler_list }, 0)) ∧
    (team_change_handler_unregister c9Th c9New = c9Th) ∧
    (team_change_handler_unregister
      (team_change_handler_register true c9Th c9New).1 c9New = c9Th) :=
  ⟨(C9_register_unregister c9Th c9Old true).1 (by decide),
   (C9_register_unregister c9Th c9New true).2.2.1 (by decide) rfl,
   (C9_register_unregister c9Th c9New true).2.2.2.1 (by decide),
   (C9_register_unregister c9Th c9New true).2.2.2.2.2 (by decide)⟩

/- ---------------------------------------------------------------------
   Claim C10.
--------------------------------------------------------------------- -/

/-- C10: when the port-list entry loop aborts — nested-parse failure,
missing port-ifindex attribute, or allocation failure for the port record,
anywhere in the entry list — the decode of the message yields nothing, and
an aborted decode leaves the whole handle unchanged: the previous port-list
snapshot stays and no handler is marked pending by that message. -/
theorem C10_port_abort_keeps_snapshot (junk : Nat) (th : TeamHandle)
    (msg : PortListMsg) (entries : List PortAttrs)
    (pre post : List PortAttrs) (e : PortAttrs) :
    (msg.port_list = some entries → decode_ports entries = none →
      get_port_list_handler junk th msg = th) ∧
    ((e.parse_ok = false ∨ e.ifindex = none ∨ e.alloc_ok = false) →
      decode_ports (pre ++ e :: post) = none) := by
  constructor
  · intro hml hdec
    by_cases hif : msg.team_ifindex.getD junk ≠ th.ifindex
    · simp [get_port_list_handler, hif]
    · simp [get_port_list_handler, hif, hml, hdec]
  · intro hbad
    induction pre with
    | nil =>
      rcases hbad with hp | hi | ha
      · simp [decode_ports, hp]
      · cases hp : e.parse_ok with
        | false => simp [decode_ports, hp]
        | true => simp [decode_ports, hp, hi]
      · cases hp : e.parse_ok with
        | false => simp [decode_ports, hp]
        | true =>
          cases hi : e.ifindex with
          | none => simp [decode_ports, hp, hi]
          | some v => simp [decode_ports, hp, hi, ha]
    | cons a pre ih =>
      cases hp : a.parse_ok with
      | false => simp [decode_ports, hp]
      | true =>
        cases hi : a.ifindex with
        | none => simp [decode_ports, hp, hi]
        | some v =>
          cases ha : a.alloc_ok with
          | false => simp [decode_ports, hp, hi, ha]
          | true => simp [decode_ports, hp, hi, ha, ih]

/-- A port entry whose required ifindex attribute is absent. -/
def c10Bad : PortAttrs :=
  { parse_ok := true, ifindex := none, alloc_ok := true, changed := false,
    linkup := false, speed := none, duplex := none }

def c10Th : TeamHandle :=
  { team_alloc with
    ifindex := 7,
    port_list := [{ ifindex := 11, speed := 1000, duplex := 1,
                    changed := false, linkup := true }],
    change_handler_list :=
      [{ call_this := false,
         handler := { id := 3, type := TeamChangeType.port } }] }

def c10Msg : PortListMsg :=
  { team_ifindex := some 7, port_list := some [c10Bad] }

/-- C10 witness: the theorem applied to a message whose only entry lacks the
port-ifindex attribute; the handle keeps its old snapshot. -/
theorem C10_port_abort_keeps_snapshot_witness :
    decode_ports [c10Bad] = none ∧
    get_port_list_handler 0 c10Th c10Msg = c10Th :=
  ⟨(C10_port_abort_keeps_snapshot 0 c10Th c10Msg [c10Bad] [] [] c10Bad).2
      (Or.inr (Or.inl rfl)),
   (C10_port_abort_keeps_snapshot 0 c10Th c10Msg [c10Bad] [] [] c10Bad).1
      rfl (by decide)⟩
